import Mathlib

/-!
Verification of the `mysql_mcp_server` repository (file
`src/mysql_mcp_server/server.py`) against its natural-language
specification.  The Python source is shallowly embedded: pure string
processing is translated into executable Lean functions on `String` /
`List Char`, and the effectful handlers (tunnel management, connection
retries, query execution, resource cleanup) are translated into pure
functions that take an explicit environment describing the outcomes of the
external world (driver connection attempts, query execution, subprocess
launch) and return both the textual result and the trace of externally
visible events the Python code would perform, in order.

Conventions: Python `str.strip` is modelled with the full `str.isspace`
whitespace set (`pyIsSpace`); `str.upper` and `re` word characters are
modelled at the ASCII level (`Char.toUpper`, `Char.isAlphanum`), which
agrees with Python on all ASCII inputs — all the denylist keywords and
structural markers are ASCII.
-/

namespace MysqlMcp

/-- Word characters in the sense of the regex `\b` boundary used by
`validate_sql_query`: letters, digits and underscore. -/
def isWordChar (c : Char) : Bool := c.isAlphanum || c == '_'

/-- The exact character set Python `str.strip` removes: the Unicode
whitespace set of `str.isspace` — ASCII 0x09–0x0D (tab, LF, VT, FF, CR),
0x1C–0x1F, space, NEL (0x85), NBSP (0xA0), and the Unicode space
separators (0x1680, 0x2000–0x200A, 0x2028, 0x2029, 0x202F, 0x205F,
0x3000). -/
def pyIsSpace (c : Char) : Bool :=
  (9 ≤ c.toNat && c.toNat ≤ 13) || (28 ≤ c.toNat && c.toNat ≤ 31)
    || c.toNat == 32 || c.toNat == 133 || c.toNat == 160 || c.toNat == 5760
    || (8192 ≤ c.toNat && c.toNat ≤ 8202) || c.toNat == 8232 || c.toNat == 8233
    || c.toNat == 8239 || c.toNat == 8287 || c.toNat == 12288

/-- Python `str.strip` on a character list: drop whitespace from both ends. -/
def pyStripList (q : List Char) : List Char :=
  ((q.dropWhile pyIsSpace).reverse.dropWhile pyIsSpace).reverse

/-- Python `str.strip` on a `String`. -/
def pyStrip (s : String) : String := ⟨pyStripList s.data⟩

/-- Python `str.upper` (ASCII): `query.strip().upper()` normalisation used
by `validate_sql_query` before the keyword scan. -/
def normalizeQuery (q : String) : List Char :=
  (pyStripList q.data).map Char.toUpper

/-- Predicate `wordOccursAt kw q i`: the keyword `kw` occurs in `q`
starting at index `i` with a regex word boundary (`\b`) on each side:
the preceding position (if any) and the following position (if any) are
not word characters.  Out-of-range neighbour positions count as
boundaries, matching start/end of string. -/
def wordOccursAt (kw q : List Char) (i : Nat) : Bool :=
  ((q.drop i).take kw.length == kw)
  && (i == 0 || !isWordChar (q.getD (i - 1) ' '))
  && !isWordChar (q.getD (i + kw.length) ' ')

/-- Predicate `wordOccurs kw q`: the keyword occurs as a whole word (regex
`\b kw \b`) somewhere in `q`.  Embeds the `re.search` call with word
boundaries around the escaped command, applied to `query_upper`. -/
def wordOccurs (kw q : List Char) : Bool :=
  (List.range (q.length + 1)).any (wordOccursAt kw q)

/-- Predicate `containsSub pat q`: `pat` occurs as a contiguous substring
of `q`.  Embeds the Python `in` test on strings. -/
def containsSub (pat q : List Char) : Bool :=
  (List.range (q.length + 1)).any (fun i => (q.drop i).take pat.length == pat)

/-- The fixed denylist `restricted_commands` of `validate_sql_query`. -/
def restricted_commands : List String :=
  ["DROP", "DELETE", "UPDATE", "INSERT", "CREATE", "ALTER", "TRUNCATE",
   "GRANT", "REVOKE", "FLUSH", "RESET", "KILL", "SHUTDOWN", "RESTART"]

/-- ASCII apostrophe, used to spell the quoted keyword in the rejection
message exactly as the Python f-string does. -/
def sq : String := String.singleton (Char.ofNat 39)

/-- Rejection message naming the keyword in single quotes, built exactly
as the Python f-string at line 186 builds it. -/
def keywordReason (kw : String) : String :=
  "Command " ++ sq ++ kw ++ sq ++ " is not allowed for security reasons"

/-- The structural part of `validate_sql_query` that runs after the keyword
scan found nothing: the multiple-`;` check and the `--` / `/*` comment
check, then the allow result.  These checks read the original (untrimmed,
case-preserved) query, exactly as the source does. -/
def structural_checks (query : String) : Bool × String :=
  if query.data.contains ';' && query.data.count ';' > 1 then
    (false, "Multiple SQL statements are not allowed")
  else if containsSub "--".data query.data || containsSub "/*".data query.data then
    (false, "SQL comments are not allowed")
  else
    (true, "Query is allowed")

/-- Embedding of `validate_sql_query` (server.py lines 167–195): scan the
denylist in order against the stripped, upper-cased query with word
boundaries; on the first hit reject naming that keyword; otherwise run the
structural checks. -/
def validate_sql_query (query : String) : Bool × String :=
  match restricted_commands.find? (fun kw => wordOccurs kw.data (normalizeQuery query)) with
  | some kw => (false, keywordReason kw)
  | none => structural_checks query

/-- Python exceptions distinguished by the handlers: driver errors
(`mysql.connector.Error`) versus any other exception class. -/
inductive PyErr where
  | mysqlError (msg : String)
  | otherError (msg : String)
deriving DecidableEq, Repr

/-- Externally visible actions performed by the Python code, recorded in
order.  `connFactory` marks an invocation of `get_database_connection`;
`connAttempt i` is the `i`-th `mysql.connector.connect` call inside it;
`connSleep s` is `time.sleep(s)` between failed attempts; `dbExecute sql`
is `cursor.execute(sql)`; `handlerFinally` / `tunnelFinally` mark entry
into the respective `finally` blocks; `cleanupError` is an exception
raised during cleanup that was caught and only logged. -/
inductive Event where
  | connFactory
  | connAttempt (i : Nat)
  | connSleep (secs : Nat)
  | connOpen
  | dbExecute (sql : String)
  | cursorClose
  | connClose
  | cleanupError
  | handlerFinally
  | tunnelLaunch
  | tunnelFinally
  | tunnelTerminated
deriving DecidableEq, Repr

/-- The retry loop of `get_database_connection` (lines 151–165):
`oracle i` is the outcome of the `i`-th `mysql.connector.connect` call
(error message on failure).  `remaining` counts loop iterations left
(`max_retries - attempt`); when it reaches `0` without an attempt the
fall-through `raise RuntimeError` fires (dead code for `max_retries = 3`).
On failure with further iterations left the code sleeps 1 second; on the
last failed attempt it re-raises the driver error. -/
def connectGo (oracle : Nat → Except String Unit) (attempt : Nat) :
    Nat → Except PyErr Unit × List Event
  | 0 => (.error (.otherError "Failed to establish database connection after all retries"), [])
  | remaining + 1 =>
    match oracle attempt with
    | .ok _ => (.ok (), [.connAttempt attempt, .connOpen])
    | .error e =>
      match remaining with
      | 0 => (.error (.mysqlError e), [.connAttempt attempt])
      | r + 1 =>
        let p := connectGo oracle (attempt + 1) (r + 1)
        (p.1, .connAttempt attempt :: .connSleep 1 :: p.2)

/-- Embedding of `get_database_connection` (lines 141–165): at most
`max_retries = 3` connect attempts with the outcomes given by `oracle`. -/
def get_database_connection (oracle : Nat → Except String Unit) :
    Except PyErr Unit × List Event :=
  let p := connectGo oracle 0 3
  (p.1, .connFactory :: p.2)

/-- The argument map of a tool call (`arguments: dict`), restricted to the
keys the four handlers read. -/
structure ToolArgs where
  query : Option String := none
  table_name : Option String := none
  limit : Option Int := none
deriving Repr, DecidableEq

/-- What `cursor.execute` + fetching produced for `execute_sql`:
`description` is `cursor.description` (column names, `none` for
statements without a result set), `rows` the dictionary rows fetched
(the cursor is created with `dictionary=True`), `rowcount` the
affected-row count. -/
structure QueryData where
  description : Option (List String)
  rows : List (List (String × String))
  rowcount : Int
deriving Repr, DecidableEq

/-- Environment for one `execute_sql_tool` call: per-attempt driver
outcomes, the outcome of executing the query, and whether the two closes
in the `finally` block raise. -/
structure SqlEnv where
  connOracle : Nat → Except String Unit
  execResult : Except PyErr QueryData
  closeCursorFails : Bool
  closeConnFails : Bool

/-- Python single-quoting used when rendering dictionaries. -/
def pyQuote (s : String) : String := sq ++ s ++ sq

/-- Render one dictionary row as Python `repr` would (string values). -/
def reprDict (row : List (String × String)) : String :=
  "\x7b" ++ String.intercalate ", "
    (row.map (fun kv => pyQuote kv.1 ++ ": " ++ pyQuote kv.2)) ++ "\x7d"

/-- Render the fetched row list as Python `repr` would. -/
def reprRows (rows : List (List (String × String))) : String :=
  "[" ++ String.intercalate ", " (rows.map reprDict) ++ "]"

/-- The success texts of `execute_sql_tool` (lines 302–322). -/
def successText (qd : QueryData) : String :=
  match qd.description with
  | some _ =>
    if qd.rows.isEmpty then "Query executed successfully. No results returned."
    else "Query executed successfully. Results:\n" ++ reprRows qd.rows
  | none => "Query executed successfully. Rows affected: " ++ toString qd.rowcount

/-- The error texts of the two except clauses of `execute_sql_tool`. -/
def sqlErrText : PyErr → String
  | .mysqlError m => "SQL error: " ++ m
  | .otherError m => "Unexpected error: " ++ m

/-- Events of the `finally` body of `execute_sql_tool`: both closes sit in one
`try`, so a failing `cursor.close()` skips `connection.close()`; any
failure is caught and logged (`cleanupError`). -/
def closeEvents (cursorFails connFails : Bool) : List Event :=
  if cursorFails then [.cleanupError]
  else if connFails then [.cursorClose, .cleanupError]
  else [.cursorClose, .connClose]

/-- Embedding of `execute_sql_tool` (lines 284–335): trim the query, guard
on emptiness, validate, then connect / execute / format, with the
`finally` cleanup on every path past the guards.  When the connection
itself fails, the `finally` finds `cursor` unbound, so the close raises
and is swallowed (`cleanupError`). -/
def execute_sql_tool (env : SqlEnv) (arguments : ToolArgs) :
    List String × List Event :=
  let query := pyStrip (arguments.query.getD "")
  if query == "" then (["No SQL query provided"], [])
  else
    let v := validate_sql_query query
    if !v.1 then (["Query not allowed: " ++ v.2], [])
    else
      let conn := get_database_connection env.connOracle
      match conn.1 with
      | .error e =>
        ([sqlErrText e], conn.2 ++ [Event.handlerFinally, Event.cleanupError])
      | .ok _ =>
        match env.execResult with
        | .error e =>
          ([sqlErrText e],
           conn.2 ++ [Event.dbExecute query, Event.handlerFinally]
             ++ closeEvents env.closeCursorFails env.closeConnFails)
        | .ok qd =>
          ([successText qd],
           conn.2 ++ [Event.dbExecute query, Event.handlerFinally]
             ++ closeEvents env.closeCursorFails env.closeConnFails)

/-- One row of the `information_schema.COLUMNS` result set. -/
structure SchemaCol where
  tableName : String
  columnName : String
  dataType : String
  isNullable : String
  columnDefault : Option String
  columnComment : String
deriving Repr, DecidableEq

/-- One rendered column line of `get_schema_info_tool`. -/
def colLine (c : SchemaCol) : String :=
  "  - " ++ c.columnName ++ ": " ++ c.dataType ++ " "
    ++ (if c.isNullable == "NO" then "NOT NULL" else "NULL")
    ++ (match c.columnDefault with | some d => " DEFAULT " ++ d | none => "")
    ++ (if c.columnComment == "" then "" else "  # " ++ c.columnComment)
    ++ "\n"

/-- Rendering for a named table (lines 358–371). -/
def schemaTableText (table_name : String) (cols : List SchemaCol) : String :=
  "Table: " ++ table_name ++ "\nColumns:\n" ++ String.join (cols.map colLine)

/-- Rendering for the unscoped listing (lines 383–401): a table header is
inserted whenever the table name changes in the ordered stream. -/
def schemaAllText (cols : List SchemaCol) : String :=
  (cols.foldl
    (fun (acc : String × Option String) c =>
      let header :=
        if acc.2 == some c.tableName then ""
        else "\nTable: " ++ c.tableName ++ "\nColumns:\n"
      (acc.1 ++ header ++ colLine c, some c.tableName))
    ("Database Schema (all tables):\n", none)).1

/-- The catalog query texts of `get_schema_info_tool` (condensed). -/
def schemaSql : Option String → String
  | some _ => "SELECT ... FROM information_schema.COLUMNS WHERE TABLE_SCHEMA = DATABASE() AND TABLE_NAME = %s ORDER BY ORDINAL_POSITION"
  | none => "SELECT ... FROM information_schema.COLUMNS WHERE TABLE_SCHEMA = DATABASE() ORDER BY TABLE_NAME, ORDINAL_POSITION"

/-- Environment for one `get_schema_info_tool` call.  `catalogResult` is
the outcome of executing + fetching the catalog query; an `otherError`
there models a non-driver exception (e.g. a `KeyError` on a malformed
row), which this handler does not catch. -/
structure SchemaEnv where
  connOracle : Nat → Except String Unit
  catalogResult : Except PyErr (List SchemaCol)
  closeFails : Bool

/-- Events of the bare `try: close... except: pass` cleanup used by the
schema and sample handlers. -/
def plainClose (closeFails : Bool) : List Event :=
  if closeFails then [.cleanupError] else [.cursorClose, .connClose]

/-- Embedding of `get_schema_info_tool` (lines 337–411).  Only
`mysql.connector.Error` is caught (as `"Schema error: ..."`); any other
exception escapes the handler after the `finally` ran. -/
def get_schema_info_tool (env : SchemaEnv) (arguments : ToolArgs) :
    Except PyErr (List String) × List Event :=
  let conn := get_database_connection env.connOracle
  match conn.1 with
  | .error (.mysqlError m) =>
    (.ok ["Schema error: " ++ m], conn.2 ++ [Event.handlerFinally, Event.cleanupError])
  | .error (.otherError m) =>
    (.error (.otherError m), conn.2 ++ [Event.handlerFinally, Event.cleanupError])
  | .ok _ =>
    let tail := [Event.dbExecute (schemaSql arguments.table_name), Event.handlerFinally]
      ++ plainClose env.closeFails
    match env.catalogResult with
    | .error (.mysqlError m) => (.ok ["Schema error: " ++ m], conn.2 ++ tail)
    | .error (.otherError m) => (.error (.otherError m), conn.2 ++ tail)
    | .ok cols =>
      match arguments.table_name with
      | some t => (.ok [schemaTableText t cols], conn.2 ++ tail)
      | none => (.ok [schemaAllText cols], conn.2 ++ tail)

/-- Environment for one `get_table_sample_tool` call: `describeResult` is
the outcome of `DESCRIBE`, `tableRows` the full contents of the table the
external database would enumerate for an unbounded `SELECT *`. -/
structure SampleEnv where
  connOracle : Nat → Except String Unit
  describeResult : Except String (List (String × String))
  tableRows : List (List (String × String))
  closeFails : Bool

/-- The clamp `limit = min(arguments.get("limit", 5), 20)` of
`get_table_sample_tool` (line 417): default 5, upper clamp 20, no lower
clamp. -/
def effectiveLimit (arguments : ToolArgs) : Int :=
  min (arguments.limit.getD 5) 20

/-- Behaviour of the external MySQL server for `SELECT * FROM t LIMIT n`
on a table whose full contents are `rows`: at most `n` rows come back; a
negative literal `n` is a syntax error raised as a driver error. -/
def limitRows (rows : List (List (String × String))) (n : Int) :
    Except String (List (List (String × String))) :=
  if n < 0 then
    .error ("You have an error in your SQL syntax near " ++ pyQuote ("LIMIT " ++ toString n))
  else .ok (rows.take n.toNat)

/-- The interpolated sample query text (line 431). -/
def sampleSql (t : String) (n : Int) : String :=
  "SELECT * FROM `" ++ t ++ "` LIMIT " ++ toString n

/-- One rendered column line of the sample output. -/
def sampleColLine (col : String × String) : String :=
  "  - " ++ col.1 ++ ": " ++ col.2 ++ "\n"

/-- One rendered data row of the sample output (1-based index). -/
def sampleRowText (ir : Nat × List (String × String)) : String :=
  "\nRow " ++ toString (ir.1 + 1) ++ ":\n"
    ++ String.join (ir.2.map (fun kv => "  " ++ kv.1 ++ ": " ++ kv.2 ++ "\n"))

/-- The full sample rendering (lines 434–456, dictionary rows). -/
def sampleText (t : String) (cols : List (String × String))
    (rows : List (List (String × String))) : String :=
  "Table: " ++ t ++ "\n\nColumns:\n" ++ String.join (cols.map sampleColLine)
    ++ "\nSample Data (" ++ toString rows.length ++ " rows):\n"
    ++ String.join (rows.enum.map sampleRowText)

/-- Embedding of `get_table_sample_tool` (lines 413–468): the limit is
clamped, a missing (or falsy empty) table name short-circuits, then
`DESCRIBE` and the limited `SELECT` run against the claimed table.  Only
driver errors are caught (`"Table sample error: ..."`). -/
def get_table_sample_tool (env : SampleEnv) (arguments : ToolArgs) :
    Except PyErr (List String) × List Event :=
  let limit := effectiveLimit arguments
  let t := arguments.table_name.getD ""
  if t == "" then (.ok ["Table name is required"], [])
  else
    let conn := get_database_connection env.connOracle
    match conn.1 with
    | .error (.mysqlError m) =>
      (.ok ["Table sample error: " ++ m], conn.2 ++ [Event.handlerFinally, Event.cleanupError])
    | .error (.otherError m) =>
      (.error (.otherError m), conn.2 ++ [Event.handlerFinally, Event.cleanupError])
    | .ok _ =>
      match env.describeResult with
      | .error m =>
        (.ok ["Table sample error: " ++ m],
         conn.2 ++ [Event.dbExecute ("DESCRIBE `" ++ t ++ "`"), Event.handlerFinally]
           ++ plainClose env.closeFails)
      | .ok cols =>
        let tail := [Event.dbExecute ("DESCRIBE `" ++ t ++ "`"),
          Event.dbExecute (sampleSql t limit), Event.handlerFinally]
          ++ plainClose env.closeFails
        match limitRows env.tableRows limit with
        | .error m => (.ok ["Table sample error: " ++ m], conn.2 ++ tail)
        | .ok rows => (.ok [sampleText t cols rows], conn.2 ++ tail)

/-- Environment of `maybe_ssh_tunnel` for one call: the tunnel toggle, the
direct endpoint used when disabled, the local port, the outcome of
`subprocess.Popen`, and whether terminating the tunnel process raises. -/
structure TunnelEnv where
  useSsh : Bool
  mysqlHost : String
  mysqlPort : Nat
  localPort : Nat
  popen : Except String Unit
  terminateFails : Bool

/-- Embedding of the `maybe_ssh_tunnel` context manager (lines 51–110)
wrapped around a body.  Disabled: yield the direct endpoint, no cleanup.
Enabled: on `Popen` failure the exception is logged and re-raised and the
`finally` still runs (where `ssh_proc` is unbound, so termination raises
and is swallowed); on success the body runs at the forwarded endpoint and
the `finally` terminates the process, failures swallowed. -/
def maybe_ssh_tunnel (env : TunnelEnv)
    (body : String → Nat → Except PyErr (List String) × List Event) :
    Except PyErr (List String) × List Event :=
  if !env.useSsh then
    body env.mysqlHost env.mysqlPort
  else
    match env.popen with
    | .error e =>
      (.error (.otherError e), [Event.tunnelFinally, Event.cleanupError])
    | .ok _ =>
      let r := body "127.0.0.1" env.localPort
      (r.1, Event.tunnelLaunch :: r.2
        ++ (if env.terminateFails then [Event.tunnelFinally, Event.cleanupError]
            else [Event.tunnelFinally, Event.tunnelTerminated]))

/-- Environment of one `call_tool` dispatch: the tunnel environment, the
per-handler environments, and the reference document (readable or not). -/
structure CallEnv where
  tunnel : TunnelEnv
  sql : SqlEnv
  schema : SchemaEnv
  sample : SampleEnv
  doc : Option String

/-- The switch on the tool name inside the `with` block of `call_tool`
(lines 259–279).  The endpoint is passed to the handlers as in the source
but does not influence the modelled outcomes. -/
def dispatch (env : CallEnv) (name : String) (arguments : ToolArgs)
    (_host : String) (_port : Nat) : Except PyErr (List String) × List Event :=
  if name == "execute_sql" then
    let r := execute_sql_tool env.sql arguments
    (.ok r.1, r.2)
  else if name == "get_schema_info" then get_schema_info_tool env.schema arguments
  else if name == "get_table_sample" then get_table_sample_tool env.sample arguments
  else if name == "get_reference_doc" then
    match env.doc with
    | some d => (.ok [d], [])
    | none => (.ok ["Reference documentation not available."], [])
  else (.ok ["Unknown tool: " ++ name], [])

/-- Embedding of `call_tool` (lines 253–282): the whole dispatch runs
inside the tunnel context manager and a catch-all `except` that converts
any escaping exception into the generic text result. -/
def call_tool (env : CallEnv) (name : String) (arguments : ToolArgs) :
    List String × List Event :=
  let r := maybe_ssh_tunnel env.tunnel (fun host port => dispatch env name arguments host port)
  match r.1 with
  | .ok texts => (texts, r.2)
  | .error _ => (["An error occurred while opening tunnels."], r.2)

/-- The environment-sourced database configuration (`get_db_config`,
lines 112–139), with the required fields present. -/
structure DbConfigEnv where
  user : String
  password : String
  database : String
  charset : String
  collation : String
  sqlMode : String
deriving Repr, DecidableEq

/-- One single-quoted key-value entry of a rendered Python dict. -/
def dictEntry (k v : String) : String := pyQuote k ++ ": " ++ pyQuote v

/-- The `safe_config` rendering logged by `get_db_config` (line 132),
password masked as `***`. -/
def maskedConfigRepr (cfg : DbConfigEnv) : String :=
  "\x7b" ++ String.intercalate ", "
    [ dictEntry "user" cfg.user
    , dictEntry "password" "***"
    , dictEntry "database" cfg.database
    , dictEntry "charset" cfg.charset
    , dictEntry "collation" cfg.collation
    , pyQuote "autocommit" ++ ": True"
    , dictEntry "sql_mode" cfg.sqlMode
    , pyQuote "connect_timeout" ++ ": 10"
    , pyQuote "pool_size" ++ ": 5"
    , pyQuote "pool_reset_session" ++ ": True"
    ] ++ "\x7d"

/-- The unmasked `config` rendering logged by `get_database_connection`
at line 147, after host/port/auth_plugin were added — the real password
appears verbatim. -/
def fullConfigRepr (cfg : DbConfigEnv) (host : String) (port : Nat) : String :=
  "\x7b" ++ String.intercalate ", "
    [ dictEntry "user" cfg.user
    , dictEntry "password" cfg.password
    , dictEntry "database" cfg.database
    , dictEntry "charset" cfg.charset
    , dictEntry "collation" cfg.collation
    , pyQuote "autocommit" ++ ": True"
    , dictEntry "sql_mode" cfg.sqlMode
    , pyQuote "connect_timeout" ++ ": 10"
    , pyQuote "pool_size" ++ ": 5"
    , pyQuote "pool_reset_session" ++ ": True"
    , dictEntry "host" host
    , pyQuote "port" ++ ": " ++ toString port
    , dictEntry "auth_plugin" "mysql_native_password"
    ] ++ "\x7d"

/-- The log messages of `get_db_config` (success path). -/
def get_db_config_logs (cfg : DbConfigEnv) : List String :=
  ["get_db_config: config=" ++ maskedConfigRepr cfg]

/-- The log messages `get_database_connection` emits before its first
connect attempt (lines 142–147). -/
def get_database_connection_logs (cfg : DbConfigEnv) (host : String) (port : Nat) :
    List String :=
  ("get_database_connection: Connecting to " ++ host ++ ":" ++ toString port)
    :: get_db_config_logs cfg
    ++ ["get_database_connection: config=" ++ fullConfigRepr cfg host port]

/-- The SSH side of the tunnel configuration (environment-sourced). -/
structure SshEnv where
  sshHost : String
  sshPort : Nat
  sshUser : String
  sshKeyPath : String
  remoteHost : String
  remotePort : Nat
  localPort : Nat
deriving Repr, DecidableEq

/-- Embedding of `os.path.basename` on a POSIX path. -/
def pyBasename (p : String) : String := (p.splitOn "/").getLastD ""

/-- The `ssh` command line built at lines 76–83. -/
def sshCmd (t : SshEnv) : List String :=
  ["ssh", "-i", t.sshKeyPath, "-N",
   "-L", toString t.localPort ++ ":" ++ t.remoteHost ++ ":" ++ toString t.remotePort,
   t.sshUser ++ "@" ++ t.sshHost, "-p", toString t.sshPort]

/-- The log messages `maybe_ssh_tunnel` emits before launching the tunnel
(lines 56–84): the SSH-config line masks the key path to its basename,
but the command line logged at line 84 joins the raw `ssh_cmd`, key path
included. -/
def maybe_ssh_tunnel_logs (t : SshEnv) : List String :=
  [ "maybe_ssh_tunnel: use_ssh=True"
  , "maybe_ssh_tunnel: SSH config: host=" ++ t.sshHost ++ ", port=" ++ toString t.sshPort
      ++ ", user=" ++ t.sshUser ++ ", key=" ++ pyBasename t.sshKeyPath
      ++ ", remote_host=" ++ t.remoteHost ++ ", remote_port=" ++ toString t.remotePort
      ++ ", local_port=" ++ toString t.localPort
  , "maybe_ssh_tunnel: Starting SSH tunnel with command: "
      ++ String.intercalate " " (sshCmd t) ]

/-- Does the guard pair at the top of `execute_sql_tool` let the query
through to the database section? -/
def execGuardsPass (arguments : ToolArgs) : Bool :=
  (pyStrip (arguments.query.getD "") != "")
    && (validate_sql_query (pyStrip (arguments.query.getD ""))).1

/-- Is an event a connect attempt? -/
def isAttempt : Event → Bool
  | .connAttempt _ => true
  | _ => false

/-- Is an event the entry into a handler `finally` block? -/
def isHandlerFin : Event → Bool
  | .handlerFinally => true
  | _ => false

/-- Is an event the entry into the tunnel `finally` block? -/
def isTunnelFin : Event → Bool
  | .tunnelFinally => true
  | _ => false

/-- A tunnel environment with tunneling disabled (direct endpoint). -/
def demoTunnelOff : TunnelEnv := ⟨false, "localhost", 3306, 3330, .ok (), false⟩

/-- A tunnel environment with tunneling enabled whose `Popen` fails. -/
def demoTunnelBad : TunnelEnv := ⟨true, "localhost", 3306, 3330, .error "ssh launch failed", false⟩

/-- A benign SQL environment: reachable database, one-row result set. -/
def demoSql : SqlEnv :=
  ⟨fun _ => .ok (), .ok ⟨some ["id"], [[("id", "1")]], -1⟩, false, false⟩

/-- A benign schema environment. -/
def demoSchema : SchemaEnv := ⟨fun _ => .ok (), .ok [], false⟩

/-- A benign sample environment. -/
def demoSample : SampleEnv := ⟨fun _ => .ok (), .ok [], [], false⟩

/-- A full dispatch environment with tunneling disabled. -/
def demoEnvOff : CallEnv := ⟨demoTunnelOff, demoSql, demoSchema, demoSample, some "doc"⟩

/-- A full dispatch environment whose tunnel launch fails. -/
def demoEnvBad : CallEnv := ⟨demoTunnelBad, demoSql, demoSchema, demoSample, some "doc"⟩

/-- A substring occurrence of a nonempty pattern puts the first pattern
character into the searched list. -/
theorem containsSub_head_mem {c : Char} {cs q : List Char}
    (h : containsSub (c :: cs) q = true) : c ∈ q := by
  unfold containsSub at h
  rw [List.any_eq_true] at h
  obtain ⟨i, _, heq⟩ := h
  rw [beq_iff_eq] at heq
  have hc : c ∈ q.drop i := by
    cases hd : q.drop i with
    | nil => rw [hd] at heq; simp at heq
    | cons d t =>
      rw [hd] at heq
      simp only [List.length_cons, List.take_succ_cons, List.cons.injEq] at heq
      rw [← heq.1]
      exact List.mem_cons_self d t
  exact List.drop_subset i q hc

/-- Lean whitespace (space, tab, CR, LF) lies inside the Python `str.strip`
whitespace set. -/
theorem pyIsSpace_of_isWhitespace (c : Char) (h : c.isWhitespace = true) :
    pyIsSpace c = true := by
  simp [Char.isWhitespace] at h
  rcases h with ((h | h) | h) | h <;> subst h <;> decide

/-- C1: every query containing a denylisted keyword as a whole word
(case-insensitively, i.e. in the stripped upper-cased text the validator
scans) is rejected with a reason naming an offending keyword; when no
keyword occurs as a whole word (in particular when a keyword occurs only
inside a longer identifier such as `DROPDOWN`), the keyword check does not
reject, and the outcome is exactly that of the structural checks. -/
theorem claim_C1_keyword_denylist (q : String) :
    ((∃ kw ∈ restricted_commands, wordOccurs kw.data (normalizeQuery q) = true) →
      (validate_sql_query q).1 = false ∧
      ∃ kw ∈ restricted_commands, wordOccurs kw.data (normalizeQuery q) = true ∧
        (validate_sql_query q).2 = keywordReason kw)
    ∧ ((∀ kw ∈ restricted_commands, wordOccurs kw.data (normalizeQuery q) = false) →
      validate_sql_query q = structural_checks q) := by
  constructor
  · rintro ⟨kw, hmem, hocc⟩
    have hs : (restricted_commands.find?
        (fun k => wordOccurs k.data (normalizeQuery q))).isSome := by
      rw [List.find?_isSome]
      exact ⟨kw, hmem, hocc⟩
    obtain ⟨k, hk⟩ := Option.isSome_iff_exists.mp hs
    refine ⟨?_, k, List.mem_of_find?_eq_some hk, ?_, ?_⟩
    · simp [validate_sql_query, hk]
    · simpa using List.find?_some hk
    · simp [validate_sql_query, hk]
  · intro h
    have hn : restricted_commands.find?
        (fun k => wordOccurs k.data (normalizeQuery q)) = none := by
      rw [List.find?_eq_none]
      intro x hx
      simp [h x hx]
    simp [validate_sql_query, hn]

/-- Witness for C1: a lower-case `drop` statement is rejected, and the
keyword check lets `DROPDOWN` through to the structural checks (which then
allow it). -/
theorem claim_C1_keyword_denylist_witness :
    (validate_sql_query "drop table x").1 = false
    ∧ validate_sql_query "SELECT DROPDOWN FROM t"
        = structural_checks "SELECT DROPDOWN FROM t"
    ∧ (validate_sql_query "SELECT DROPDOWN FROM t").1 = true := by
  refine ⟨?_, ?_, by decide⟩
  · exact ((claim_C1_keyword_denylist "drop table x").1 ⟨"DROP", by decide, by decide⟩).1
  · exact (claim_C1_keyword_denylist "SELECT DROPDOWN FROM t").2 (by decide)

/-- C4: two or more `;` force rejection, a `--` or `/*` anywhere forces
rejection, and a query passing all three checks (at most one `;`, no
comment markers, no whole-word denylisted keyword) is allowed with the
"Query is allowed" reason. -/
theorem claim_C4_structural_rules (q : String) :
    (2 ≤ q.data.count ';' → (validate_sql_query q).1 = false)
    ∧ ((containsSub "--".data q.data = true ∨ containsSub "/*".data q.data = true) →
        (validate_sql_query q).1 = false)
    ∧ (q.data.count ';' ≤ 1 →
        containsSub "--".data q.data = false →
        containsSub "/*".data q.data = false →
        (∀ kw ∈ restricted_commands, wordOccurs kw.data (normalizeQuery q) = false) →
        validate_sql_query q = (true, "Query is allowed")) := by
  refine ⟨?_, ?_, ?_⟩
  · intro h2
    have hmem : ';' ∈ q.data := List.count_pos_iff.mp (by omega)
    have hcon : q.data.contains ';' = true := by simpa using hmem
    have hgt : q.data.count ';' > 1 := by omega
    unfold validate_sql_query
    cases hf : restricted_commands.find?
        (fun k => wordOccurs k.data (normalizeQuery q)) with
    | some kw => simp
    | none => simp [structural_checks, hmem, hcon, hgt]
  · rintro (hc | hc) <;>
    · unfold validate_sql_query
      cases hf : restricted_commands.find?
          (fun k => wordOccurs k.data (normalizeQuery q)) with
      | some kw => simp
      | none =>
        show (structural_checks q).1 = false
        unfold structural_checks
        split
        · rfl
        · split
          · rfl
          · next hcond => simp [hc] at hcond
  · intro hsemi hc1 hc2 hkw
    have hn : restricted_commands.find?
        (fun k => wordOccurs k.data (normalizeQuery q)) = none := by
      rw [List.find?_eq_none]
      intro x hx
      simp [hkw x hx]
    have hlt : ¬ (q.data.count ';' > 1) := by omega
    simp [validate_sql_query, hn, structural_checks, hc1, hc2, hlt]

/-- Witness for C4: a two-statement query and a commented query are
rejected; a clean `SELECT` is allowed. -/
theorem claim_C4_structural_rules_witness :
    (validate_sql_query "SELECT 1; SELECT 2;").1 = false
    ∧ (validate_sql_query "SELECT 1 /* hidden */").1 = false
    ∧ validate_sql_query "SELECT id FROM t WHERE x = 3"
        = (true, "Query is allowed") := by
  refine ⟨?_, ?_, ?_⟩
  · exact (claim_C4_structural_rules "SELECT 1; SELECT 2;").1 (by decide)
  · exact (claim_C4_structural_rules "SELECT 1 /* hidden */").2.1 (Or.inr (by decide))
  · exact (claim_C4_structural_rules "SELECT id FROM t WHERE x = 3").2.2
      (by decide) (by decide) (by decide) (by decide)

/-- C10: the validator allows the empty query and every whitespace-only
query with the "Query is allowed" reason — it never rejects for
emptiness; the emptiness guard lives in `execute_sql_tool`, which
short-circuits such a query before validation or any database work. -/
theorem claim_C10_empty_query (q : String)
    (h : ∀ c ∈ q.data, c.isWhitespace = true) :
    validate_sql_query q = (true, "Query is allowed")
    ∧ ∀ env : SqlEnv,
        execute_sql_tool env ⟨some q, none, none⟩ = (["No SQL query provided"], []) := by
  have hstrip : pyStripList q.data = [] := by
    unfold pyStripList
    have h1 : q.data.dropWhile pyIsSpace = [] := by
      rw [List.dropWhile_eq_nil_iff]
      intro x hx
      exact pyIsSpace_of_isWhitespace x (h x hx)
    rw [h1]
    simp
  have hnorm : normalizeQuery q = [] := by
    unfold normalizeQuery
    rw [hstrip]
    rfl
  have hsemi : ';' ∉ q.data := by
    intro hmem
    have := h ';' hmem
    simp at this
  have hcount : q.data.count ';' = 0 := by
    rw [List.count_eq_zero]
    exact hsemi
  have hdash : containsSub "--".data q.data = false := by
    cases hc : containsSub "--".data q.data with
    | false => rfl
    | true =>
      have := containsSub_head_mem hc
      have := h '-' this
      simp at this
  have hstar : containsSub "/*".data q.data = false := by
    cases hc : containsSub "/*".data q.data with
    | false => rfl
    | true =>
      have := containsSub_head_mem hc
      have := h '/' this
      simp at this
  have hval : validate_sql_query q = (true, "Query is allowed") := by
    have hn : restricted_commands.find?
        (fun k => wordOccurs k.data (normalizeQuery q)) = none := by
      rw [List.find?_eq_none]
      intro x hx
      rw [hnorm]
      revert x
      decide
    have hlt : ¬ (q.data.count ';' > 1) := by omega
    simp [validate_sql_query, hn, structural_checks, hdash, hstar, hlt]
  refine ⟨hval, fun env => ?_⟩
  have hq : pyStrip q = "" := congrArg String.mk hstrip
  simp [execute_sql_tool, hq]

/-- Witness for C10: the empty string and a spaces-and-tab string are both
allowed by the validator and short-circuited by the handler. -/
theorem claim_C10_empty_query_witness :
    validate_sql_query " \t " = (true, "Query is allowed")
    ∧ execute_sql_tool ⟨fun _ => .ok (), .error (.otherError "x"), false, false⟩
        ⟨some " \t ", none, none⟩ = (["No SQL query provided"], []) := by
  have h := claim_C10_empty_query " \t " (by decide)
  exact ⟨h.1, h.2 _⟩

/-- C2: `execute_sql_tool` touches the database only after its guards
pass — a query that is empty after trimming yields the "no query
provided" text with an empty event trace (no connection, no execution),
and a query the validator rejects yields the rejection text naming the
reason, again with an empty event trace. -/
theorem claim_C2_guards_before_db (env : SqlEnv) (arguments : ToolArgs) :
    (pyStrip (arguments.query.getD "") = "" →
      execute_sql_tool env arguments = (["No SQL query provided"], []))
    ∧ (∀ reason, validate_sql_query (pyStrip (arguments.query.getD "")) = (false, reason) →
      execute_sql_tool env arguments = (["Query not allowed: " ++ reason], [])) := by
  constructor
  · intro h
    simp [execute_sql_tool, h]
  · intro reason h
    by_cases he : pyStrip (arguments.query.getD "") = ""
    · rw [he] at h
      have hta : (validate_sql_query "").1 = true := by decide
      rw [h] at hta
      simp at hta
    · simp [execute_sql_tool, he, h]

/-- Witness for C2: `DROP TABLE x` is rejected with an empty trace, and a
whitespace-only query short-circuits with an empty trace, under an
environment whose database would be reachable. -/
theorem claim_C2_guards_before_db_witness :
    execute_sql_tool ⟨fun _ => .ok (), .error (.otherError "x"), false, false⟩
        ⟨some "DROP TABLE x", none, none⟩
      = (["Query not allowed: " ++ keywordReason "DROP"], [])
    ∧ execute_sql_tool ⟨fun _ => .ok (), .error (.otherError "x"), false, false⟩
        ⟨some "   ", none, none⟩ = (["No SQL query provided"], []) := by
  constructor
  · exact (claim_C2_guards_before_db _ _).2 (keywordReason "DROP") (by decide)
  · exact (claim_C2_guards_before_db _ _).1 (by decide)

/-- C7: `get_database_connection` makes at most 3 connect attempts,
returns at the first success, sleeps the fixed 1-second backoff after
each failed attempt except the last, and after the third failure
re-raises the last driver error. -/
theorem claim_C7_connection_retry (oracle : Nat → Except String Unit) :
    ((get_database_connection oracle).2.countP isAttempt ≤ 3)
    ∧ (oracle 0 = .ok () →
        get_database_connection oracle
          = (.ok (), [.connFactory, .connAttempt 0, .connOpen]))
    ∧ (∀ e0, oracle 0 = .error e0 → oracle 1 = .ok () →
        get_database_connection oracle
          = (.ok (), [.connFactory, .connAttempt 0, .connSleep 1,
              .connAttempt 1, .connOpen]))
    ∧ (∀ e0 e1, oracle 0 = .error e0 → oracle 1 = .error e1 → oracle 2 = .ok () →
        get_database_connection oracle
          = (.ok (), [.connFactory, .connAttempt 0, .connSleep 1,
              .connAttempt 1, .connSleep 1, .connAttempt 2, .connOpen]))
    ∧ (∀ e0 e1 e2, oracle 0 = .error e0 → oracle 1 = .error e1 → oracle 2 = .error e2 →
        get_database_connection oracle
          = (.error (.mysqlError e2), [.connFactory, .connAttempt 0, .connSleep 1,
              .connAttempt 1, .connSleep 1, .connAttempt 2])) := by
  refine ⟨?_, ?_, ?_, ?_, ?_⟩
  · cases h0 : oracle 0 with
    | ok a => simp [get_database_connection, connectGo, h0, isAttempt]
    | error e0 =>
      cases h1 : oracle 1 with
      | ok a => simp [get_database_connection, connectGo, h0, h1, isAttempt]
      | error e1 =>
        cases h2 : oracle 2 with
        | ok a => simp [get_database_connection, connectGo, h0, h1, h2, isAttempt]
        | error e2 => simp [get_database_connection, connectGo, h0, h1, h2, isAttempt]
  · intro h0
    simp [get_database_connection, connectGo, h0]
  · intro e0 h0 h1
    simp [get_database_connection, connectGo, h0, h1]
  · intro e0 e1 h0 h1 h2
    simp [get_database_connection, connectGo, h0, h1, h2]
  · intro e0 e1 e2 h0 h1 h2
    simp [get_database_connection, connectGo, h0, h1, h2]

/-- Witness for C7: an oracle that fails twice and succeeds on the third
attempt produces exactly the attempt/sleep trace the claim describes. -/
theorem claim_C7_connection_retry_witness :
    get_database_connection
        (fun i => if i ≤ 1 then .error ("boom " ++ toString i) else .ok ())
      = (.ok (), [.connFactory, .connAttempt 0, .connSleep 1,
          .connAttempt 1, .connSleep 1, .connAttempt 2, .connOpen]) :=
  (claim_C7_connection_retry _).2.2.2.1 "boom 0" "boom 1" rfl rfl rfl

/-- C8: the effective row limit of `get_table_sample_tool` is
`min(requested, 20)` with default 5; the `SELECT` it executes uses
exactly that limit; `limit=50` yields at most 20 rows; and there is no
lower clamp — any requested limit `≤ 20` (including zero and negatives)
is used as given, neither rejected nor replaced by the default. -/
theorem claim_C8_sample_limit_clamp (env : SampleEnv) (arguments : ToolArgs) (t : String) :
    (arguments.limit = none → effectiveLimit arguments = 5)
    ∧ (∀ l, arguments.limit = some l → effectiveLimit arguments = min l 20)
    ∧ (∀ l, arguments.limit = some l → l ≤ 20 → effectiveLimit arguments = l)
    ∧ (arguments.table_name = some t → t ≠ "" →
        env.connOracle 0 = .ok () →
        ∀ cols, env.describeResult = .ok cols →
        Event.dbExecute (sampleSql t (effectiveLimit arguments))
            ∈ (get_table_sample_tool env arguments).2
        ∧ (arguments.limit = some 50 →
            (get_table_sample_tool env arguments).1
              = .ok [sampleText t cols (env.tableRows.take 20)]
            ∧ (env.tableRows.take 20).length ≤ 20)) := by
  refine ⟨?_, ?_, ?_, ?_⟩
  · intro h
    simp [effectiveLimit, h]
  · intro l h
    simp [effectiveLimit, h]
  · intro l h hle
    simp [effectiveLimit, h]
    omega
  · intro ht hne hok cols hdesc
    have hbeq : (arguments.table_name.getD "" == "") = false := by
      rw [ht]
      simpa using hne
    constructor
    · cases hlr : limitRows env.tableRows (effectiveLimit arguments) with
      | error m =>
        simp [get_table_sample_tool, ht, hbeq, hne, hok, hdesc, hlr,
          get_database_connection, connectGo]
      | ok rows =>
        simp [get_table_sample_tool, ht, hbeq, hne, hok, hdesc, hlr,
          get_database_connection, connectGo]
    · intro h50
      have hl : effectiveLimit arguments = 20 := by simp [effectiveLimit, h50]
      have hlr : limitRows env.tableRows (effectiveLimit arguments)
          = .ok (env.tableRows.take 20) := by
        rw [hl]
        simp [limitRows]
      constructor
      · simp [get_table_sample_tool, ht, hbeq, hne, hok, hdesc, hlr,
          get_database_connection, connectGo]
      · exact List.length_take_le 20 env.tableRows

/-- Witness for C8: with `limit=50` on a three-row table the executed
query says `LIMIT 20` and all three rows (≤ 20) are returned; the clamp
default and lower-bound conjuncts are exercised at `none` and `-3`. -/
theorem claim_C8_sample_limit_clamp_witness :
    effectiveLimit ⟨none, some "users", none⟩ = 5
    ∧ effectiveLimit ⟨none, some "users", some (-3)⟩ = -3
    ∧ (Event.dbExecute (sampleSql "users" 20)
        ∈ (get_table_sample_tool
            ⟨fun _ => .ok (), .ok [("id", "int")], [[("id", "1")], [("id", "2")], [("id", "3")]], false⟩
            ⟨none, some "users", some 50⟩).2) := by
  have h := claim_C8_sample_limit_clamp
      ⟨fun _ => .ok (), .ok [("id", "int")], [[("id", "1")], [("id", "2")], [("id", "3")]], false⟩
      ⟨none, some "users", some 50⟩ "users"
  refine ⟨?_, ?_, ?_⟩
  · exact (claim_C8_sample_limit_clamp
      ⟨fun _ => .ok (), .ok [], [], false⟩ ⟨none, some "users", none⟩ "users").1 rfl
  · exact (claim_C8_sample_limit_clamp
      ⟨fun _ => .ok (), .ok [], [], false⟩ ⟨none, some "users", some (-3)⟩ "users").2.2.1
      (-3) rfl (by decide)
  · have h4 := (h.2.2.2 rfl (by decide) rfl [("id", "int")] rfl).1
    have hl : effectiveLimit (⟨none, some "users", some 50⟩ : ToolArgs) = 20 := by decide
    rw [hl] at h4
    exact h4

/-- Every event of the retry loop is an attempt, a sleep, or the success
marker. -/
theorem connectGo_mem (oracle : Nat → Except String Unit) :
    ∀ (r attempt : Nat) (e : Event), e ∈ (connectGo oracle attempt r).2 →
      e = .connOpen ∨ e = .connSleep 1 ∨ ∃ i, e = .connAttempt i := by
  intro r
  induction r with
  | zero =>
    intro attempt e he
    simp [connectGo] at he
  | succ n ih =>
    intro attempt e he
    rw [connectGo.eq_2] at he
    cases ho : oracle attempt with
    | ok a =>
      rw [ho] at he
      simp at he
      rcases he with h | h
      · exact Or.inr (Or.inr ⟨attempt, h⟩)
      · exact Or.inl h
    | error msg =>
      rw [ho] at he
      cases n with
      | zero =>
        simp at he
        exact Or.inr (Or.inr ⟨attempt, he⟩)
      | succ m =>
        simp at he
        rcases he with h | h | h
        · exact Or.inr (Or.inr ⟨attempt, h⟩)
        · exact Or.inr (Or.inl h)
        · exact ih (attempt + 1) e h

/-- Any predicate false on all connection-factory events counts zero in a
`get_database_connection` trace. -/
theorem get_database_connection_countP (oracle : Nat → Except String Unit)
    (p : Event → Bool) (hf : p .connFactory = false) (ho : p .connOpen = false)
    (hs : p (.connSleep 1) = false) (ha : ∀ i, p (.connAttempt i) = false) :
    (get_database_connection oracle).2.countP p = 0 := by
  rw [List.countP_eq_zero]
  intro a ha'
  unfold get_database_connection at ha'
  rcases List.mem_cons.mp ha' with h | h
  · simp [h, hf]
  · rcases connectGo_mem oracle 3 0 a h with h1 | h1 | ⟨i, h1⟩ <;>
      simp [h1, ho, hs, ha]

/-- The `finally` cleanup of `execute_sql_tool` contributes no events
satisfying a predicate false on close/cleanup events. -/
theorem closeEvents_countP (b1 b2 : Bool) (p : Event → Bool)
    (h1 : p .cleanupError = false) (h2 : p .cursorClose = false)
    (h3 : p .connClose = false) : (closeEvents b1 b2).countP p = 0 := by
  cases b1 <;> cases b2 <;> simp [closeEvents, h1, h2, h3]

/-- Same for the bare cleanup of the schema/sample handlers. -/
theorem plainClose_countP (b : Bool) (p : Event → Bool)
    (h1 : p .cleanupError = false) (h2 : p .cursorClose = false)
    (h3 : p .connClose = false) : (plainClose b).countP p = 0 := by
  cases b <;> simp [plainClose, h1, h2, h3]

/-- Handler `execute_sql_tool` always returns exactly one text block. -/
theorem execute_sql_tool_len (env : SqlEnv) (arguments : ToolArgs) :
    (execute_sql_tool env arguments).1.length = 1 := by
  simp only [execute_sql_tool]
  split
  · rfl
  · split
    · rfl
    · split
      · rfl
      · split <;> rfl

/-- No tunnel-`finally` event ever appears in an `execute_sql_tool` trace. -/
theorem execute_sql_tool_tunnelFin (env : SqlEnv) (arguments : ToolArgs) :
    (execute_sql_tool env arguments).2.countP isTunnelFin = 0 := by
  have hconn := get_database_connection_countP env.connOracle isTunnelFin
    rfl rfl rfl (fun _ => rfl)
  have hclose := closeEvents_countP env.closeCursorFails env.closeConnFails
    isTunnelFin rfl rfl rfl
  simp only [execute_sql_tool]
  split
  · rfl
  · split
    · rfl
    · split
      · simp [List.countP_append, List.countP_cons, hconn, isTunnelFin]
      · split <;> simp [List.countP_append, List.countP_cons, hconn, hclose, isTunnelFin]

/-- A successful `get_schema_info_tool` call returns exactly one text
block. -/
theorem get_schema_info_tool_len (env : SchemaEnv) (arguments : ToolArgs)
    (texts : List String) (h : (get_schema_info_tool env arguments).1 = .ok texts) :
    texts.length = 1 := by
  simp only [get_schema_info_tool] at h
  repeat' split at h
  all_goals first
    | (cases h; rfl)
    | exact Except.noConfusion h

/-- No tunnel-`finally` event ever appears in a `get_schema_info_tool`
trace. -/
theorem get_schema_info_tool_tunnelFin (env : SchemaEnv) (arguments : ToolArgs) :
    (get_schema_info_tool env arguments).2.countP isTunnelFin = 0 := by
  have hconn := get_database_connection_countP env.connOracle isTunnelFin
    rfl rfl rfl (fun _ => rfl)
  have hclose := plainClose_countP env.closeFails isTunnelFin rfl rfl rfl
  simp only [get_schema_info_tool]
  repeat' split
  all_goals simp [List.countP_append, List.countP_cons, hconn, hclose, isTunnelFin]

/-- A successful `get_table_sample_tool` call returns exactly one text
block. -/
theorem get_table_sample_tool_len (env : SampleEnv) (arguments : ToolArgs)
    (texts : List String) (h : (get_table_sample_tool env arguments).1 = .ok texts) :
    texts.length = 1 := by
  simp only [get_table_sample_tool] at h
  repeat' split at h
  all_goals first
    | (cases h; rfl)
    | exact Except.noConfusion h

/-- No tunnel-`finally` event ever appears in a `get_table_sample_tool`
trace. -/
theorem get_table_sample_tool_tunnelFin (env : SampleEnv) (arguments : ToolArgs) :
    (get_table_sample_tool env arguments).2.countP isTunnelFin = 0 := by
  have hconn := get_database_connection_countP env.connOracle isTunnelFin
    rfl rfl rfl (fun _ => rfl)
  have hclose := plainClose_countP env.closeFails isTunnelFin rfl rfl rfl
  simp only [get_table_sample_tool]
  repeat' split
  all_goals simp [List.countP_append, List.countP_cons, hconn, hclose, isTunnelFin]

/-- A successful dispatch returns exactly one text block whatever the tool
name. -/
theorem dispatch_ok_len (env : CallEnv) (name : String) (arguments : ToolArgs)
    (host : String) (port : Nat) (texts : List String)
    (h : (dispatch env name arguments host port).1 = .ok texts) :
    texts.length = 1 := by
  simp only [dispatch] at h
  split at h
  · cases h
    exact execute_sql_tool_len env.sql arguments
  · split at h
    · exact get_schema_info_tool_len env.schema arguments texts h
    · split at h
      · exact get_table_sample_tool_len env.sample arguments texts h
      · split at h
        · split at h <;> (cases h; rfl)
        · cases h; rfl

/-- No tunnel-`finally` event appears in any dispatched handler trace. -/
theorem dispatch_tunnelFin (env : CallEnv) (name : String) (arguments : ToolArgs)
    (host : String) (port : Nat) :
    (dispatch env name arguments host port).2.countP isTunnelFin = 0 := by
  simp only [dispatch]
  split
  · exact execute_sql_tool_tunnelFin env.sql arguments
  · split
    · exact get_schema_info_tool_tunnelFin env.schema arguments
    · split
      · exact get_table_sample_tool_tunnelFin env.sample arguments
      · split
        · split <;> rfl
        · rfl

/-- A successful tunnel acquisition passes the body result through from
one of the two possible endpoints. -/
theorem maybe_ssh_tunnel_ok (env : TunnelEnv)
    (body : String → Nat → Except PyErr (List String) × List Event)
    (texts : List String) (h : (maybe_ssh_tunnel env body).1 = .ok texts) :
    (body env.mysqlHost env.mysqlPort).1 = .ok texts
    ∨ (body "127.0.0.1" env.localPort).1 = .ok texts := by
  simp only [maybe_ssh_tunnel] at h
  split at h
  · exact Or.inl h
  · split at h
    · exact Except.noConfusion h
    · exact Or.inr h

/-- Dispatch does not read the tunnel part of the environment. -/
theorem dispatch_tunnel_irrelevant (env : CallEnv) (T : TunnelEnv) (name : String)
    (arguments : ToolArgs) (host : String) (port : Nat) :
    dispatch { env with tunnel := T } name arguments host port
      = dispatch env name arguments host port := rfl

/-- The primary result of a tunnel-wrapped body does not depend on whether
terminating the forwarding process fails. -/
theorem maybe_ssh_tunnel_fst_terminate (te : TunnelEnv) (b : Bool)
    (body : String → Nat → Except PyErr (List String) × List Event) :
    (maybe_ssh_tunnel { te with terminateFails := b } body).1
      = (maybe_ssh_tunnel te body).1 := by
  cases hssh : te.useSsh with
  | false => simp [maybe_ssh_tunnel, hssh]
  | true =>
    cases hp : te.popen with
    | error e => simp [maybe_ssh_tunnel, hssh, hp]
    | ok u => simp [maybe_ssh_tunnel, hssh, hp]

/-- The event trace of `call_tool` is exactly the tunnel-wrapped dispatch
trace, whichever way the result went. -/
theorem call_tool_trace (env : CallEnv) (name : String) (arguments : ToolArgs) :
    (call_tool env name arguments).2
      = (maybe_ssh_tunnel env.tunnel
          (fun host port => dispatch env name arguments host port)).2 := by
  cases hr : (maybe_ssh_tunnel env.tunnel
      (fun host port => dispatch env name arguments host port)).1 with
  | ok t => simp [call_tool, hr]
  | error m => simp [call_tool, hr]

/-- C5: every `call_tool` dispatch returns exactly one text block; an
unrecognized tool name (with the tunnel acquirable) yields the
unknown-tool text; and any exception escaping the tunnel manager or a
handler inside the `with` block is converted at the dispatcher boundary
into the generic textual error result rather than propagating. -/
theorem claim_C5_dispatcher_boundary (env : CallEnv) (name : String) (arguments : ToolArgs) :
    ((call_tool env name arguments).1.length = 1)
    ∧ (name ∉ ["execute_sql", "get_schema_info", "get_table_sample", "get_reference_doc"] →
        (env.tunnel.useSsh = false ∨ env.tunnel.popen = .ok ()) →
        (call_tool env name arguments).1 = ["Unknown tool: " ++ name])
    ∧ (∀ m, (maybe_ssh_tunnel env.tunnel
          (fun host port => dispatch env name arguments host port)).1 = .error m →
        (call_tool env name arguments).1
          = ["An error occurred while opening tunnels."]) := by
  refine ⟨?_, ?_, ?_⟩
  · cases hr : (maybe_ssh_tunnel env.tunnel
        (fun host port => dispatch env name arguments host port)).1 with
    | error m => simp [call_tool, hr]
    | ok texts =>
      have h1 : (call_tool env name arguments).1 = texts := by simp [call_tool, hr]
      rw [h1]
      rcases maybe_ssh_tunnel_ok env.tunnel _ texts hr with h | h
      · exact dispatch_ok_len env name arguments _ _ texts h
      · exact dispatch_ok_len env name arguments _ _ texts h
  · intro hname htun
    simp only [List.mem_cons, List.not_mem_nil, or_false, not_or] at hname
    obtain ⟨h1, h2, h3, h4⟩ := hname
    have hd : ∀ host port, dispatch env name arguments host port
        = (.ok ["Unknown tool: " ++ name], []) := by
      intro host port
      simp [dispatch, h1, h2, h3, h4]
    rcases htun with h | h
    · simp [call_tool, maybe_ssh_tunnel, h, hd]
    · cases hssh : env.tunnel.useSsh
      · simp [call_tool, maybe_ssh_tunnel, hssh, hd]
      · simp [call_tool, maybe_ssh_tunnel, hssh, h, hd]
  · intro m hm
    simp [call_tool, hm]

/-- Witness for C5: an unknown tool name gets the unknown-tool text, and a
failed tunnel launch gets the generic error text. -/
theorem claim_C5_dispatcher_boundary_witness :
    (call_tool demoEnvOff "frobnicate" ⟨none, none, none⟩).1
        = ["Unknown tool: frobnicate"]
    ∧ (call_tool demoEnvBad "execute_sql" ⟨some "SELECT 1", none, none⟩).1
        = ["An error occurred while opening tunnels."] := by
  constructor
  · exact (claim_C5_dispatcher_boundary demoEnvOff "frobnicate" ⟨none, none, none⟩).2.1
      (by decide) (Or.inl rfl)
  · exact (claim_C5_dispatcher_boundary demoEnvBad "execute_sql"
      ⟨some "SELECT 1", none, none⟩).2.2 (.otherError "ssh launch failed") rfl

/-- C6: the handler `finally` runs exactly once per call in each of the
three database handlers — on every path past the guards of
`execute_sql_tool`, unconditionally in `get_schema_info_tool`, and on
every path past the table-name guard of `get_table_sample_tool` (it
cannot run before a resource was acquired); close failures are swallowed
and never change any handler primary result; the tunnel `finally` runs
exactly once per call whenever tunneling is enabled and never when
disabled; and a failing tunnel termination never changes the primary
result. -/
theorem claim_C6_cleanup_exactly_once :
    (∀ (env : SqlEnv) (arguments : ToolArgs),
      (execute_sql_tool env arguments).2.countP isHandlerFin
        = if execGuardsPass arguments then 1 else 0)
    ∧ (∀ (env : SqlEnv) (arguments : ToolArgs) (b1 b2 : Bool),
      (execute_sql_tool { env with closeCursorFails := b1, closeConnFails := b2 } arguments).1
        = (execute_sql_tool env arguments).1)
    ∧ (∀ (env : SchemaEnv) (arguments : ToolArgs),
      (get_schema_info_tool env arguments).2.countP isHandlerFin = 1)
    ∧ (∀ (env : SchemaEnv) (arguments : ToolArgs) (b : Bool),
      (get_schema_info_tool { env with closeFails := b } arguments).1
        = (get_schema_info_tool env arguments).1)
    ∧ (∀ (env : SampleEnv) (arguments : ToolArgs),
      (get_table_sample_tool env arguments).2.countP isHandlerFin
        = if arguments.table_name.getD "" = "" then 0 else 1)
    ∧ (∀ (env : SampleEnv) (arguments : ToolArgs) (b : Bool),
      (get_table_sample_tool { env with closeFails := b } arguments).1
        = (get_table_sample_tool env arguments).1)
    ∧ (∀ (env : CallEnv) (name : String) (arguments : ToolArgs),
      (call_tool env name arguments).2.countP isTunnelFin
        = if env.tunnel.useSsh then 1 else 0)
    ∧ (∀ (env : CallEnv) (name : String) (arguments : ToolArgs) (b : Bool),
      (call_tool { env with tunnel := { env.tunnel with terminateFails := b } } name arguments).1
        = (call_tool env name arguments).1) := by
  refine ⟨?_, ?_, ?_, ?_, ?_, ?_, ?_, ?_⟩
  · intro env arguments
    have hconn := get_database_connection_countP env.connOracle isHandlerFin
      rfl rfl rfl (fun _ => rfl)
    have hclose := closeEvents_countP env.closeCursorFails env.closeConnFails
      isHandlerFin rfl rfl rfl
    by_cases hq : pyStrip (arguments.query.getD "") = ""
    · simp [execute_sql_tool, hq, execGuardsPass]
    · by_cases hv : (validate_sql_query (pyStrip (arguments.query.getD ""))).1 = true
      · have hg : execGuardsPass arguments = true := by
          simp [execGuardsPass, hq, hv]
        rw [hg, if_pos rfl]
        cases hc : (get_database_connection env.connOracle).1 with
        | error e =>
          simp [execute_sql_tool, hq, hv, hc, List.countP_append,
            List.countP_cons, hconn, isHandlerFin]
        | ok u =>
          cases hx : env.execResult with
          | error e =>
            simp [execute_sql_tool, hq, hv, hc, hx, List.countP_append,
              List.countP_cons, hconn, hclose, isHandlerFin]
          | ok qd =>
            simp [execute_sql_tool, hq, hv, hc, hx, List.countP_append,
              List.countP_cons, hconn, hclose, isHandlerFin]
      · have hv' : (validate_sql_query (pyStrip (arguments.query.getD ""))).1 = false := by
          cases h' : (validate_sql_query (pyStrip (arguments.query.getD ""))).1
          · rfl
          · exact absurd h' hv
        simp [execute_sql_tool, hq, hv', execGuardsPass]
  · intro env arguments b1 b2
    cases hc : (get_database_connection env.connOracle).1 with
    | error e => simp [execute_sql_tool, hc]
    | ok u =>
      cases hx : env.execResult with
      | error e =>
        simp only [execute_sql_tool, hc, hx]
        split
        · rfl
        · split <;> rfl
      | ok qd =>
        simp only [execute_sql_tool, hc, hx]
        split
        · rfl
        · split <;> rfl
  · intro env arguments
    have hconn := get_database_connection_countP env.connOracle isHandlerFin
      rfl rfl rfl (fun _ => rfl)
    have hclose := plainClose_countP env.closeFails isHandlerFin rfl rfl rfl
    simp only [get_schema_info_tool]
    repeat' split
    all_goals simp [List.countP_append, List.countP_cons, hconn, hclose, isHandlerFin]
  · intro env arguments b
    cases hc : (get_database_connection env.connOracle).1 with
    | error e => cases e <;> simp [get_schema_info_tool, hc]
    | ok u =>
      cases hx : env.catalogResult with
      | error e => cases e <;> simp [get_schema_info_tool, hc, hx]
      | ok cols =>
        cases ht : arguments.table_name <;> simp [get_schema_info_tool, hc, hx, ht]
  · intro env arguments
    have hconn := get_database_connection_countP env.connOracle isHandlerFin
      rfl rfl rfl (fun _ => rfl)
    have hclose := plainClose_countP env.closeFails isHandlerFin rfl rfl rfl
    by_cases hT : arguments.table_name.getD "" = ""
    · have hb : (arguments.table_name.getD "" == "") = true := by simpa using hT
      simp [get_table_sample_tool, hb, hT]
    · rw [if_neg hT]
      have hb : ¬ ((arguments.table_name.getD "" == "") = true) := by simpa using hT
      simp only [get_table_sample_tool, if_neg hb]
      repeat' split
      all_goals simp [List.countP_append, List.countP_cons, hconn, hclose, isHandlerFin]
  · intro env arguments b
    by_cases hT : arguments.table_name.getD "" = ""
    · have hb : (arguments.table_name.getD "" == "") = true := by simpa using hT
      simp [get_table_sample_tool, hb]
    · have hb : (arguments.table_name.getD "" == "") = false := by simpa using hT
      cases hc : (get_database_connection env.connOracle).1 with
      | error e => cases e <;> simp [get_table_sample_tool, hb, hc]
      | ok u =>
        cases hd : env.describeResult with
        | error m => simp [get_table_sample_tool, hb, hc, hd]
        | ok cols =>
          cases hlr : limitRows env.tableRows (effectiveLimit arguments) with
          | error m => simp [get_table_sample_tool, hb, hc, hd, hlr]
          | ok rows => simp [get_table_sample_tool, hb, hc, hd, hlr]
  · intro env name arguments
    rw [call_tool_trace]
    cases hssh : env.tunnel.useSsh with
    | false =>
      simp only [maybe_ssh_tunnel, hssh, Bool.not_false, if_true, if_false]
      simp only [Bool.false_eq_true, if_false]
      exact dispatch_tunnelFin env name arguments env.tunnel.mysqlHost env.tunnel.mysqlPort
    | true =>
      cases hp : env.tunnel.popen with
      | error e => simp [maybe_ssh_tunnel, hssh, hp, isTunnelFin]
      | ok u =>
        cases ht : env.tunnel.terminateFails <;>
          simp [maybe_ssh_tunnel, hssh, hp, ht, List.countP_append, List.countP_cons,
            isTunnelFin,
            dispatch_tunnelFin env name arguments "127.0.0.1" env.tunnel.localPort]
  · intro env name arguments b
    have hb := maybe_ssh_tunnel_fst_terminate env.tunnel b
      (fun host port => dispatch env name arguments host port)
    simp only [call_tool, dispatch_tunnel_irrelevant]
    rw [hb]
    split <;> rfl

/-- C9: when tunneling is enabled and the forwarding process fails to
launch, the call returns the textual error result and the connection
factory is never invoked (no `connFactory` event in the trace). -/
theorem claim_C9_tunnel_failure_no_connection (env : CallEnv) (name : String)
    (arguments : ToolArgs) (e : String)
    (hssh : env.tunnel.useSsh = true) (hp : env.tunnel.popen = .error e) :
    (call_tool env name arguments).1 = ["An error occurred while opening tunnels."]
    ∧ Event.connFactory ∉ (call_tool env name arguments).2 := by
  have ht : maybe_ssh_tunnel env.tunnel
      (fun host port => dispatch env name arguments host port)
      = (.error (.otherError e), [Event.tunnelFinally, Event.cleanupError]) := by
    simp [maybe_ssh_tunnel, hssh, hp]
  constructor
  · simp [call_tool, ht]
  · simp [call_tool, ht]

/-- Witness for C9: the failed-launch environment produces the generic
error text and a trace without any connection-factory invocation. -/
theorem claim_C9_tunnel_failure_no_connection_witness :
    (call_tool demoEnvBad "get_schema_info" ⟨none, none, none⟩).1
      = ["An error occurred while opening tunnels."]
    ∧ Event.connFactory ∉ (call_tool demoEnvBad "get_schema_info" ⟨none, none, none⟩).2 :=
  claim_C9_tunnel_failure_no_connection demoEnvBad "get_schema_info" ⟨none, none, none⟩
    "ssh launch failed" rfl rfl

set_option maxRecDepth 8192 in
/-- C3 is violated by the code: although `get_db_config` masks the
password and the SSH-config log masks the key path to its basename,
`get_database_connection` (line 147) logs the merged config dict with the
cleartext password, and `maybe_ssh_tunnel` (line 84) logs the joined ssh
command line containing the full key path.  Both leaks are exhibited on
concrete configurations. -/
theorem claim_C3_secret_leak :
    (∃ m ∈ get_database_connection_logs
        ⟨"root", "s3cretpw", "appdb", "utf8mb4", "utf8mb4_unicode_ci", "TRADITIONAL"⟩
        "localhost" 3306,
      containsSub "s3cretpw".data m.data = true)
    ∧ (∃ m ∈ maybe_ssh_tunnel_logs
        ⟨"bastion.example.com", 22, "ubuntu", "/home/u/.ssh/id_rsa", "db.internal", 3306, 3330⟩,
      containsSub "/home/u/.ssh/id_rsa".data m.data = true) := by
  constructor
  · exact ⟨"get_database_connection: config="
        ++ fullConfigRepr ⟨"root", "s3cretpw", "appdb", "utf8mb4",
            "utf8mb4_unicode_ci", "TRADITIONAL"⟩ "localhost" 3306,
      by simp [get_database_connection_logs, get_db_config_logs], by decide⟩
  · exact ⟨"maybe_ssh_tunnel: Starting SSH tunnel with command: "
        ++ String.intercalate " " (sshCmd ⟨"bastion.example.com", 22, "ubuntu",
            "/home/u/.ssh/id_rsa", "db.internal", 3306, 3330⟩),
      by simp [maybe_ssh_tunnel_logs], by decide⟩

example : (validate_sql_query "SELECT * FROM t").1 = true := by decide
example : (validate_sql_query "drop table x").1 = false := by decide
example : (validate_sql_query "SELECT DROPDOWN FROM t").1 = true := by decide
example : (validate_sql_query "SELECT 1; SELECT 2;").1 = false := by decide
example : (validate_sql_query "SELECT 1 -- hi").1 = false := by decide
example : (validate_sql_query "").1 = true := by decide
example : (validate_sql_query "DeLeTe FROM t").2
    = keywordReason "DELETE" := by decide
example : pyStrip "\x0b\x0c \t" = "" := by decide
example : execute_sql_tool ⟨fun _ => .ok (), .error (.otherError "x"), false, false⟩
    ⟨some "\x0b", none, none⟩ = (["No SQL query provided"], []) := by decide

end MysqlMcp
